import Mathlib

/-!
# LVGL camera display: frame pipeline of `lvgl_camera_display.cpp`

Shallow embedding of `LVGLCameraDisplay` (ESP32-P4 variant, i.e. the code
under `#ifdef USE_ESP32_VARIANT_ESP32P4`).

* Component fields become a record; pointers are addresses in `Nat`, with
  `0` for `nullptr`.
* `uint16_t` / `uint32_t` / `size_t` values are `Nat` with explicit
  reduction modulo `2^16` / `2^32` (`size_t` and `int` are 32 bits wide on
  the ESP32-P4).
* Every call that leaves the component (camera, PPA driver, LVGL, clock,
  the FPS log line) is recorded, in program order, in a list of `Call`s;
  what those calls return is read from an environment record. The other
  log lines have no effect on the state and are left out.
* `float` values are IEEE 754 binary32 numbers given by their exact rational
  value (or infinity / NaN); every conversion, product and quotient is
  rounded to nearest, ties to even, as the hardware does.
-/

namespace esphome.lvgl_camera_display

/-! ## Machine integers -/

/-- Value of a `uint16_t` holding `n`. -/
def u16 (n : Nat) : Nat := n % 65536

/-- Value of a `uint32_t` (or `size_t`) holding `n`. -/
def u32 (n : Nat) : Nat := n % 4294967296

/-- Subtraction `a - b` of two `uint32_t` values (wraps modulo `2^32`). -/
def u32_sub (a b : Nat) : Nat := (a % 4294967296 + (4294967296 - b % 4294967296)) % 4294967296

/-- Result of a signed 32-bit `int` operation whose exact value is `x`
(two's-complement wrap, as produced by the RISC-V multiply instruction). -/
def wrap_int32 (x : Int) : Int := (x + 2147483648) % 4294967296 - 2147483648

/-- Conversion of an `int` to `size_t` (32-bit unsigned). -/
def int_to_size_t (x : Int) : Nat := (x % 4294967296).toNat

/-- The expression `a * b * 2` on two `uint16_t` operands: both are
promoted to `int`, multiplied left to right, and the `int` result is
converted to `size_t` by the assignment. -/
def rgb565_size (a b : Nat) : Nat :=
  int_to_size_t (wrap_int32 (wrap_int32 ((a : Int) * (b : Int)) * 2))

/-! ## Single-precision arithmetic (IEEE 754 binary32, round to nearest even) -/

/-- Rounds a rational to the nearest integer, ties to the even one. -/
def round_half_even (m : ℚ) : ℤ :=
  if m - ⌊m⌋ < 1 / 2 then ⌊m⌋
  else if 1 / 2 < m - ⌊m⌋ then ⌊m⌋ + 1
  else if ⌊m⌋ % 2 = 0 then ⌊m⌋ else ⌊m⌋ + 1

/-- Spacing of the binary32 numbers around `q`: 24 significant bits, the
exponent of `q` not taken below -126 (subnormal range). -/
def f32_ulp (q : ℚ) : ℚ := (2 : ℚ) ^ (max (Int.log 2 |q|) (-126) - 23)

/-- The multiple of `f32_ulp q` nearest to `q`, ties to even: the binary32
rounding of `q` before the overflow check. -/
def f32_round (q : ℚ) : ℚ := round_half_even (q / f32_ulp q) * f32_ulp q

/-- A `float` value: a finite number (given by its exact value), an
infinity or a NaN. Every operand of the component is unsigned, so no
negative zero or negative infinity arises and neither is represented. -/
inductive F32 where
  | finite (q : ℚ)
  | inf
  | nan
  deriving DecidableEq, Repr

/-- The `float` nearest to the exact value `q`; values that round to 2^128
or beyond overflow to infinity. -/
def F32.of_rat (q : ℚ) : F32 :=
  if (2 : ℚ) ^ 128 ≤ |f32_round q| then F32.inf else F32.finite (f32_round q)

/-- Conversion of a `uint32_t` to `float`. -/
def F32.of_u32 (n : Nat) : F32 := F32.of_rat (n : ℚ)

/-- The product of two `float`s. -/
def F32.mul : F32 → F32 → F32
  | .finite a, .finite b => F32.of_rat (a * b)
  | .finite a, .inf => if a = 0 then .nan else .inf
  | .inf, .finite b => if b = 0 then .nan else .inf
  | .inf, .inf => .inf
  | _, _ => .nan

/-- The quotient of two `float`s. -/
def F32.div : F32 → F32 → F32
  | .finite a, .finite b =>
    if b = 0 then (if a = 0 then .nan else .inf) else F32.of_rat (a / b)
  | .finite _, .inf => .finite 0
  | .inf, .finite _ => .inf
  | _, _ => .nan

/-- The expression `n * k / d` of lines 279-280, with `n` and `d` of type
`uint32_t` and `k` a `float` constant: `n` is converted and multiplied by
`k`, `d` is converted, then the quotient is taken, each step rounded. -/
def f32_scaled_ratio (n : Nat) (k : ℚ) (d : Nat) : F32 :=
  F32.div (F32.mul (F32.of_u32 n) (F32.finite k)) (F32.of_u32 d)

/-! ## Data model (`lvgl_camera_display.h`) -/

/-- The enum `RotationAngle`. -/
inductive RotationAngle where
  | ROTATION_0
  | ROTATION_90
  | ROTATION_180
  | ROTATION_270
  deriving DecidableEq, Repr

/-- Integer value of a `RotationAngle` enumerator, as declared
(`ROTATION_0 = 0`, `ROTATION_90 = 90`, `ROTATION_180 = 180`,
`ROTATION_270 = 270`). -/
def RotationAngle.toNat : RotationAngle → Nat
  | .ROTATION_0 => 0
  | .ROTATION_90 => 90
  | .ROTATION_180 => 180
  | .ROTATION_270 => 270

/-- Modelled from the spec: the accelerator's rotation enumeration (section
4.3), which this component uses through `driver/ppa.h` but does not declare.
It is `ppa_srm_rotation_angle_t` of ESP-IDF (`hal/ppa_types.h`): four
enumerators, one per angle, without explicit values. -/
inductive ppa_srm_rotation_angle_t where
  | PPA_SRM_ROTATION_ANGLE_0
  | PPA_SRM_ROTATION_ANGLE_90
  | PPA_SRM_ROTATION_ANGLE_180
  | PPA_SRM_ROTATION_ANGLE_270
  deriving DecidableEq, Repr

/-- Modelled from the spec: the integer values of the accelerator's
enumerators, which are not declared in this component. In the ESP-IDF
declaration they have no initialisers, so they count up from zero in
declaration order. -/
def ppa_srm_rotation_angle_t.toNat : ppa_srm_rotation_angle_t → Nat
  | .PPA_SRM_ROTATION_ANGLE_0 => 0
  | .PPA_SRM_ROTATION_ANGLE_90 => 1
  | .PPA_SRM_ROTATION_ANGLE_180 => 2
  | .PPA_SRM_ROTATION_ANGLE_270 => 3

/-- The accelerator enumerator that stands for the same angle as a
`RotationAngle`. -/
def ppa_angle_for : RotationAngle → ppa_srm_rotation_angle_t
  | .ROTATION_0 => .PPA_SRM_ROTATION_ANGLE_0
  | .ROTATION_90 => .PPA_SRM_ROTATION_ANGLE_90
  | .ROTATION_180 => .PPA_SRM_ROTATION_ANGLE_180
  | .ROTATION_270 => .PPA_SRM_ROTATION_ANGLE_270

/-- The constant `ESP_OK`. -/
def ESP_OK : Nat := 0

/-- Colour mode, alpha mode and transaction mode constants of the PPA
driver that occur in the request. -/
inductive PpaConst where
  | PPA_SRM_COLOR_MODE_RGB565
  | PPA_ALPHA_NO_CHANGE
  | PPA_TRANS_MODE_BLOCKING
  deriving DecidableEq, Repr

/-- The LVGL colour format passed to the canvas. -/
inductive lv_img_cf_t where
  | LV_IMG_CF_TRUE_COLOR
  deriving DecidableEq, Repr

/-- The fields of `ppa_srm_oper_config_t` that `transform_frame_` fills in.
`rotation_angle` holds the integer value stored in the enum field; the two
scale factors are the exact values of the `float` constants. -/
structure ppa_srm_oper_config_t where
  in_buffer : Nat
  in_pic_w : Nat
  in_pic_h : Nat
  in_block_w : Nat
  in_block_h : Nat
  in_block_offset_x : Nat
  in_block_offset_y : Nat
  in_srm_cm : PpaConst
  out_buffer : Nat
  out_buffer_size : Nat
  out_pic_w : Nat
  out_pic_h : Nat
  out_block_offset_x : Nat
  out_block_offset_y : Nat
  out_srm_cm : PpaConst
  rotation_angle : Nat
  scale_x : Int
  scale_y : Int
  mirror_x : Bool
  mirror_y : Bool
  rgb_swap : Bool
  byte_swap : Bool
  alpha_update_mode : PpaConst
  alpha_fix_val : Nat
  mode : PpaConst
  deriving DecidableEq, Repr

/-- The periodic report of lines 279-282: the integer operands read there
(`frame_count_`, `now - last_fps_time_`, `drop_count_` and the `uint32_t`
sum `frame_count_ + drop_count_`) and the two `float` values `fps` and
`drop_rate` computed from them and handed to the log line. -/
structure FpsReport where
  frame_count : Nat
  elapsed : Nat
  drop_count : Nat
  total : Nat
  fps : F32
  drop_rate : F32
  deriving DecidableEq, Repr

/-- Calls that leave the component, with their arguments
(`lv_disp_refr_timer` stands for `_lv_disp_refr_timer(NULL)`, `log_fps` for
the `ESP_LOGI` line of the periodic report). -/
inductive Call where
  | is_streaming
  | millis
  | acquire_frame (last_sequence : Nat)
  | get_image_data
  | ppa_do_scale_rotate_mirror (handle : Nat) (config : ppa_srm_oper_config_t)
  | copy_frame_rgb565 (dst : Nat) (capacity : Nat) (apply_white_balance : Bool)
  | get_current_sequence
  | release_frame
  | lv_obj_get_disp (obj : Nat)
  | lv_disp_refr_timer
  | lv_canvas_set_buffer (canvas : Nat) (buf : Nat) (w : Nat) (h : Nat) (cf : lv_img_cf_t)
  | lv_obj_invalidate (obj : Nat)
  | log_fps (report : FpsReport)
  deriving DecidableEq, Repr

/-- The class `LVGLCameraDisplay`: its data members, plus the failed flag
that `mark_failed()` sets in the `Component` base class. -/
structure LVGLCameraDisplay where
  camera_ : Nat
  display_buffer_ : Nat
  frame_size_ : Nat
  ppa_handle_ : Nat
  transform_buffer_ : Nat
  transform_buffer_size_ : Nat
  canvas_obj_ : Nat
  width_ : Nat
  height_ : Nat
  rotation_ : RotationAngle
  mirror_x_ : Bool
  mirror_y_ : Bool
  update_interval_ : Nat
  frame_count_ : Nat
  drop_count_ : Nat
  last_frame_sequence_ : Nat
  last_update_time_ : Nat
  last_fps_time_ : Nat
  first_update_ : Bool
  failed : Bool
  deriving DecidableEq, Repr

/-- A freshly constructed component: the default member initialisers of the
class. -/
def LVGLCameraDisplay.new : LVGLCameraDisplay :=
  { camera_ := 0, display_buffer_ := 0, frame_size_ := 0, ppa_handle_ := 0,
    transform_buffer_ := 0, transform_buffer_size_ := 0, canvas_obj_ := 0,
    width_ := 1280, height_ := 720, rotation_ := .ROTATION_0,
    mirror_x_ := false, mirror_y_ := false, update_interval_ := 33,
    frame_count_ := 0, drop_count_ := 0, last_frame_sequence_ := 0,
    last_update_time_ := 0, last_fps_time_ := 0, first_update_ := true,
    failed := false }

/-- The method `Component::mark_failed()`. -/
def mark_failed (s : LVGLCameraDisplay) : LVGLCameraDisplay := { s with failed := true }

/-- The method `configure_canvas`. -/
def configure_canvas (s : LVGLCameraDisplay) (canvas : Nat) : LVGLCameraDisplay :=
  { s with canvas_obj_ := canvas }

/-- The test `rotation_ == ROTATION_90 || rotation_ == ROTATION_270`. -/
def swaps_axes (r : RotationAngle) : Bool :=
  r == .ROTATION_90 || r == .ROTATION_270

/-- The test `rotation_ != ROTATION_0 || mirror_x_ || mirror_y_`. -/
def needs_ppa (rotation_ : RotationAngle) (mirror_x_ mirror_y_ : Bool) : Bool :=
  rotation_ != .ROTATION_0 || mirror_x_ || mirror_y_

/-! ## Environments: what the collaborators return -/

/-- Results of the external calls made by `setup()` and `init_ppa_()`. -/
structure SetupEnv where
  get_image_width : Nat
  get_image_height : Nat
  display_alloc : Nat
  ppa_register_ret : Nat
  ppa_register_handle : Nat
  transform_alloc : Nat
  is_streaming : Bool
  start_streaming : Bool
  deriving DecidableEq, Repr

/-- Results of the external calls made by one `loop()`; each is made at
most once per tick. `acquire_frame` takes the last sequence number by value
and returns a `bool`; `ppa_ret` is the `esp_err_t` of
`ppa_do_scale_rotate_mirror`; `copy_frame_rgb565` is the byte count
returned by the copy; pointers are addresses. -/
structure LoopEnv where
  is_streaming : Bool
  millis : Nat
  acquire_frame : Bool
  get_image_data : Nat
  ppa_ret : Nat
  copy_frame_rgb565 : Nat
  get_current_sequence : Nat
  lv_obj_get_disp : Nat
  deriving DecidableEq, Repr

/-! ## `init_ppa_` and `setup` -/

/-- The method `init_ppa_()`: returns the new state and the `bool` result.
`ppa_register_client` writes the handle only when it returns `ESP_OK`. -/
def init_ppa_ (s : LVGLCameraDisplay) (e : SetupEnv) : LVGLCameraDisplay × Bool :=
  if e.ppa_register_ret ≠ ESP_OK then (s, false)
  else
    let s1 := { s with ppa_handle_ := e.ppa_register_handle }
    let width := if swaps_axes s1.rotation_ then s1.height_ else s1.width_
    let height := if swaps_axes s1.rotation_ then s1.width_ else s1.height_
    let s2 := { s1 with transform_buffer_size_ := rgb565_size width height }
    let s3 := { s2 with transform_buffer_ := e.transform_alloc }
    if s3.transform_buffer_ = 0 then ({ s3 with ppa_handle_ := 0 }, false)
    else (s3, true)

/-- The method `setup()`. -/
def setup (s : LVGLCameraDisplay) (e : SetupEnv) : LVGLCameraDisplay :=
  if s.camera_ = 0 then mark_failed s
  else
    let s1 := { s with width_ := u16 e.get_image_width, height_ := u16 e.get_image_height }
    let display_width := if swaps_axes s1.rotation_ then s1.height_ else s1.width_
    let display_height := if swaps_axes s1.rotation_ then s1.width_ else s1.height_
    let s2 := { s1 with frame_size_ := rgb565_size display_width display_height }
    let s3 := { s2 with display_buffer_ := e.display_alloc }
    if s3.display_buffer_ = 0 then mark_failed s3
    else
      let r := if needs_ppa s3.rotation_ s3.mirror_x_ s3.mirror_y_ then init_ppa_ s3 e
        else (s3, true)
      if r.2 = false then mark_failed r.1
      else if e.is_streaming = false ∧ e.start_streaming = false then mark_failed r.1
      else r.1

/-! ## `transform_frame_` -/

/-- The request `srm_config` that `transform_frame_` builds (lines 141-174). -/
def srm_config (s : LVGLCameraDisplay) (src dst : Nat) : ppa_srm_oper_config_t :=
  { in_buffer := src,
    in_pic_w := s.width_,
    in_pic_h := s.height_,
    in_block_w := s.width_,
    in_block_h := s.height_,
    in_block_offset_x := 0,
    in_block_offset_y := 0,
    in_srm_cm := .PPA_SRM_COLOR_MODE_RGB565,
    out_buffer := dst,
    out_buffer_size := s.transform_buffer_size_,
    out_pic_w := if swaps_axes s.rotation_ then s.height_ else s.width_,
    out_pic_h := if swaps_axes s.rotation_ then s.width_ else s.height_,
    out_block_offset_x := 0,
    out_block_offset_y := 0,
    out_srm_cm := .PPA_SRM_COLOR_MODE_RGB565,
    rotation_angle := s.rotation_.toNat,
    scale_x := 1,
    scale_y := 1,
    mirror_x := s.mirror_x_,
    mirror_y := s.mirror_y_,
    rgb_swap := false,
    byte_swap := false,
    alpha_update_mode := .PPA_ALPHA_NO_CHANGE,
    alpha_fix_val := 255,
    mode := .PPA_TRANS_MODE_BLOCKING }

/-- The method `transform_frame_(src, dst)`: the `bool` result and the calls
made. `ppa_ret` is what `ppa_do_scale_rotate_mirror` returns if called. -/
def transform_frame_ (s : LVGLCameraDisplay) (src dst : Nat) (ppa_ret : Nat) :
    Bool × List Call :=
  if s.ppa_handle_ = 0 ∨ src = 0 ∨ dst = 0 then (false, [])
  else if ppa_ret ≠ ESP_OK then
    (false, [Call.ppa_do_scale_rotate_mirror s.ppa_handle_ (srm_config s src dst)])
  else
    (true, [Call.ppa_do_scale_rotate_mirror s.ppa_handle_ (srm_config s src dst)])

/-! ## `loop` -/

/-- Lines 252-286 of `loop()`: record the sequence, release the frame,
present `target_buffer` on the canvas, update the telemetry. `calls` are the
calls made so far in this tick. -/
def loop_present (s : LVGLCameraDisplay) (e : LoopEnv) (now : Nat)
    (target_buffer canvas_width canvas_height : Nat) (calls : List Call) :
    LVGLCameraDisplay × List Call :=
  let s1 := { s with last_frame_sequence_ := u32 e.get_current_sequence }
  let calls1 := calls ++ [Call.get_current_sequence, Call.release_frame]
  let calls2 :=
    if s1.canvas_obj_ ≠ 0 then
      calls1 ++ [Call.lv_obj_get_disp s1.canvas_obj_]
        ++ (if e.lv_obj_get_disp ≠ 0 then [Call.lv_disp_refr_timer] else [])
        ++ [Call.lv_canvas_set_buffer s1.canvas_obj_ target_buffer canvas_width canvas_height
              lv_img_cf_t.LV_IMG_CF_TRUE_COLOR,
            Call.lv_obj_invalidate s1.canvas_obj_]
    else calls1
  let s2 := { s1 with frame_count_ := u32 (s1.frame_count_ + 1) }
  if s2.first_update_ then
    ({ s2 with first_update_ := false, last_fps_time_ := now }, calls2)
  else if u32_sub now s2.last_fps_time_ ≥ 5000 then
    let report : FpsReport :=
      { frame_count := s2.frame_count_,
        elapsed := u32_sub now s2.last_fps_time_,
        drop_count := s2.drop_count_,
        total := u32 (s2.frame_count_ + s2.drop_count_),
        fps := f32_scaled_ratio s2.frame_count_ 1000 (u32_sub now s2.last_fps_time_),
        drop_rate := f32_scaled_ratio s2.drop_count_ 100 (u32 (s2.frame_count_ + s2.drop_count_)) }
    ({ s2 with frame_count_ := 0, drop_count_ := 0, last_fps_time_ := now },
      calls2 ++ [Call.log_fps report])
  else (s2, calls2)

/-- The method `loop()`: the state after the tick and the calls made, in
order. -/
def loop (s : LVGLCameraDisplay) (e : LoopEnv) : LVGLCameraDisplay × List Call :=
  if s.camera_ = 0 then (s, [])
  else if e.is_streaming = false then (s, [Call.is_streaming])
  else
    let now := u32 e.millis
    if u32_sub now s.last_update_time_ < s.update_interval_ then
      (s, [Call.is_streaming, Call.millis])
    else
      let s1 := { s with last_update_time_ := now }
      let calls := [Call.is_streaming, Call.millis, Call.acquire_frame s1.last_frame_sequence_]
      if e.acquire_frame = false then
        ({ s1 with drop_count_ := u32 (s1.drop_count_ + 1) }, calls)
      else if s1.ppa_handle_ ≠ 0 ∧ s1.transform_buffer_ ≠ 0 then
        let canvas_width := if swaps_axes s1.rotation_ then s1.height_ else s1.width_
        let canvas_height := if swaps_axes s1.rotation_ then s1.width_ else s1.height_
        let camera_data := e.get_image_data
        let calls1 := calls ++ [Call.get_image_data]
        if camera_data ≠ 0 then
          let t := transform_frame_ s1 camera_data s1.transform_buffer_ e.ppa_ret
          let calls2 := calls1 ++ t.2
          if t.1 then
            loop_present s1 e now s1.transform_buffer_ canvas_width canvas_height calls2
          else
            let copied := e.copy_frame_rgb565
            let calls3 := calls2 ++ [Call.copy_frame_rgb565 s1.display_buffer_ s1.frame_size_ true]
            if copied = 0 then (s1, calls3 ++ [Call.release_frame])
            else loop_present s1 e now s1.display_buffer_ canvas_width canvas_height calls3
        else
          loop_present s1 e now s1.display_buffer_ canvas_width canvas_height calls1
      else
        let copied := e.copy_frame_rgb565
        let calls1 := calls ++ [Call.copy_frame_rgb565 s1.display_buffer_ s1.frame_size_ true]
        if copied = 0 then
          ({ s1 with drop_count_ := u32 (s1.drop_count_ + 1) }, calls1 ++ [Call.release_frame])
        else loop_present s1 e now s1.display_buffer_ s1.width_ s1.height_ calls1

/-! ## Auxiliary definitions for the statements -/

/-- The state after line 197 of `loop()` (the gate was passed at `now`). -/
def after_gate (s : LVGLCameraDisplay) (e : LoopEnv) : LVGLCameraDisplay :=
  { s with last_update_time_ := u32 e.millis }

/-- The calls of a tick up to and including `acquire_frame`. -/
def acquire_calls (s : LVGLCameraDisplay) : List Call :=
  [Call.is_streaming, Call.millis, Call.acquire_frame s.last_frame_sequence_]

/-- Effective width: `width_`, or `height_` when the rotation is 90 or 270
degrees (the `std::swap` of `setup()` and `init_ppa_()`, `out_w` of
`transform_frame_`, `canvas_width` on the transform path of `loop()`). -/
def effective_width (s : LVGLCameraDisplay) : Nat :=
  if swaps_axes s.rotation_ then s.height_ else s.width_

/-- Effective height: `height_`, or `width_` when the rotation is 90 or 270
degrees. -/
def effective_height (s : LVGLCameraDisplay) : Nat :=
  if swaps_axes s.rotation_ then s.width_ else s.height_

/-- The tick reaches `acquire_frame`: a camera is linked, it is streaming,
and the timing gate lets the tick through. -/
def reaches_acquire (s : LVGLCameraDisplay) (e : LoopEnv) : Prop :=
  s.camera_ ≠ 0 ∧ e.is_streaming = true ∧
    ¬ (u32_sub (u32 e.millis) s.last_update_time_ < s.update_interval_)

instance reaches_acquire_decidable (s : LVGLCameraDisplay) (e : LoopEnv) :
    Decidable (reaches_acquire s e) :=
  inferInstanceAs (Decidable (s.camera_ ≠ 0 ∧ e.is_streaming = true ∧
    ¬ (u32_sub (u32 e.millis) s.last_update_time_ < s.update_interval_)))

/-- The PPA request of a tick. -/
def ppa_call (s : LVGLCameraDisplay) (e : LoopEnv) : Call :=
  Call.ppa_do_scale_rotate_mirror s.ppa_handle_
    (srm_config (after_gate s e) e.get_image_data s.transform_buffer_)

/-- The copy request of a tick. -/
def copy_call (s : LVGLCameraDisplay) : Call :=
  Call.copy_frame_rgb565 s.display_buffer_ s.frame_size_ true

/-- Scans a call list: `true` when no `lv_canvas_set_buffer` occurs before
the first `release_frame`. -/
def release_precedes_present : List Call → Bool
  | [] => true
  | Call.release_frame :: _ => true
  | Call.lv_canvas_set_buffer _ _ _ _ _ :: _ => false
  | _ :: cs => release_precedes_present cs

/-- The calls that are neither a release nor a canvas update. -/
def Call.before_release : Call → Bool
  | Call.release_frame => false
  | Call.lv_canvas_set_buffer _ _ _ _ _ => false
  | _ => true

/-- The release discipline of one tick, as a predicate on its result. -/
def release_discipline (acquire_ok : Bool) (r : LVGLCameraDisplay × List Call) : Prop :=
  (((∃ k, Call.acquire_frame k ∈ r.2) ∧ acquire_ok = true) →
      r.2.count Call.release_frame = 1) ∧
  (¬ ((∃ k, Call.acquire_frame k ∈ r.2) ∧ acquire_ok = true) →
      r.2.count Call.release_frame = 0) ∧
  release_precedes_present r.2 = true

/-- What the driver guarantees about `ppa_register_client`: when it returns
`ESP_OK` it has stored a non-null client handle. -/
def SetupEnv.well_formed (e : SetupEnv) : Prop :=
  e.ppa_register_ret = ESP_OK → e.ppa_register_handle ≠ 0

instance SetupEnv.well_formed_decidable (e : SetupEnv) : Decidable e.well_formed :=
  inferInstanceAs (Decidable (e.ppa_register_ret = ESP_OK → e.ppa_register_handle ≠ 0))

/-- States of a component in service: the result of a `setup()` that did
not mark the component failed (run against a driver that keeps the
guarantee `SetupEnv.well_formed`), followed by any number of `loop()` ticks
and `configure_canvas` calls. The setters of the header are
configuration-time calls that precede `setup()`; the state `setup()` starts
from is arbitrary. -/
inductive Reachable : LVGLCameraDisplay → Prop where
  | setup (s : LVGLCameraDisplay) (e : SetupEnv) :
      e.well_formed → (setup s e).failed = false → Reachable (setup s e)
  | loop (s : LVGLCameraDisplay) (e : LoopEnv) : Reachable s → Reachable (loop s e).1
  | configure_canvas (s : LVGLCameraDisplay) (canvas : Nat) :
      Reachable s → Reachable (configure_canvas s canvas)

/-- The LVGL calls of lines 259-270 for the chosen buffer and size. -/
def canvas_calls (s : LVGLCameraDisplay) (e : LoopEnv) (target_buffer w h : Nat) : List Call :=
  if s.canvas_obj_ ≠ 0 then
    [Call.lv_obj_get_disp s.canvas_obj_]
      ++ (if e.lv_obj_get_disp ≠ 0 then [Call.lv_disp_refr_timer] else [])
      ++ [Call.lv_canvas_set_buffer s.canvas_obj_ target_buffer w h
            lv_img_cf_t.LV_IMG_CF_TRUE_COLOR,
          Call.lv_obj_invalidate s.canvas_obj_]
  else []

/-- The report computed at lines 279-280 when the tick that starts in state
`s` at time `now` gets there. -/
def fps_report (s : LVGLCameraDisplay) (now : Nat) : FpsReport :=
  { frame_count := u32 (s.frame_count_ + 1),
    elapsed := u32_sub now s.last_fps_time_,
    drop_count := s.drop_count_,
    total := u32 (u32 (s.frame_count_ + 1) + s.drop_count_),
    fps := f32_scaled_ratio (u32 (s.frame_count_ + 1)) 1000 (u32_sub now s.last_fps_time_),
    drop_rate := f32_scaled_ratio s.drop_count_ 100
      (u32 (u32 (s.frame_count_ + 1) + s.drop_count_)) }

/-- The condition of lines 275-278 under which a presenting tick reports. -/
def report_due (s : LVGLCameraDisplay) (now : Nat) : Bool :=
  !s.first_update_ && decide (5000 ≤ u32_sub now s.last_fps_time_)

/-- The state in which a presenting tick ends (lines 253, 272-286). -/
def presented_state (s : LVGLCameraDisplay) (e : LoopEnv) (now : Nat) : LVGLCameraDisplay :=
  if s.first_update_ then
    { s with last_frame_sequence_ := u32 e.get_current_sequence,
             frame_count_ := u32 (s.frame_count_ + 1),
             first_update_ := false, last_fps_time_ := now }
  else if 5000 ≤ u32_sub now s.last_fps_time_ then
    { s with last_frame_sequence_ := u32 e.get_current_sequence,
             frame_count_ := 0, drop_count_ := 0, last_fps_time_ := now }
  else
    { s with last_frame_sequence_ := u32 e.get_current_sequence,
             frame_count_ := u32 (s.frame_count_ + 1) }

/-! ## Concrete configurations used to exercise the statements -/

/-- A component configured for a 90 degree rotation with horizontal mirror,
camera and canvas linked, before `setup()`. -/
def rotated_config : LVGLCameraDisplay :=
  { LVGLCameraDisplay.new with
    camera_ := 1, canvas_obj_ := 2, rotation_ := .ROTATION_90, mirror_x_ := true }

/-- A component with the default orientation, camera and canvas linked,
before `setup()`. -/
def plain_config : LVGLCameraDisplay :=
  { LVGLCameraDisplay.new with camera_ := 1, canvas_obj_ := 2 }

/-- A 1280x720 camera, all allocations and the PPA registration succeed. -/
def hd_setup : SetupEnv :=
  { get_image_width := 1280, get_image_height := 720, display_alloc := 4096,
    ppa_register_ret := 0, ppa_register_handle := 3, transform_alloc := 2097152,
    is_streaming := false, start_streaming := true }

/-- The rotated component after `setup()`. -/
def rotated_ready : LVGLCameraDisplay := setup rotated_config hd_setup

/-- The unrotated component after `setup()`. -/
def plain_ready : LVGLCameraDisplay := setup plain_config hd_setup

/-- A tick at `now` in which every collaborator succeeds. -/
def good_tick (now : Nat) : LoopEnv :=
  { is_streaming := true, millis := now, acquire_frame := true, get_image_data := 8192,
    ppa_ret := 0, copy_frame_rgb565 := 1843200, get_current_sequence := 1,
    lv_obj_get_disp := 5 }

/-- A tick at `now` in which the camera has no frame ready. -/
def dropped_tick (now : Nat) : LoopEnv :=
  { good_tick now with acquire_frame := false }

/-- A tick at `now` in which the PPA rejects the request
(`ESP_ERR_INVALID_ARG`) and the fallback copy delivers a frame. -/
def fallback_tick (now : Nat) : LoopEnv :=
  { good_tick now with ppa_ret := 258 }

/-- A tick at `now` in which the PPA rejects the request and the fallback
copy returns zero bytes. -/
def fallback_zero_tick (now : Nat) : LoopEnv :=
  { good_tick now with ppa_ret := 258, copy_frame_rgb565 := 0 }

/-- A tick at `now` in which the camera hands out no raw buffer and a copy,
if one were requested, would return zero bytes. -/
def no_raw_buffer_tick (now : Nat) : LoopEnv :=
  { good_tick now with get_image_data := 0, copy_frame_rgb565 := 0 }

/-- The rotated component after its first presented frame (at 100 ms). -/
def rotated_running : LVGLCameraDisplay := (loop rotated_ready (good_tick 100)).1

/-- The rotated component shortly before its gate time wraps around. -/
def rotated_late : LVGLCameraDisplay :=
  { rotated_ready with last_update_time_ := 4294967290 }

/-- A camera that reports 46341x46341 pixels; everything else succeeds. -/
def huge_setup : SetupEnv :=
  { hd_setup with get_image_width := 46341, get_image_height := 46341 }

/-- Recognises the FPS log line. -/
def Call.is_report : Call → Bool
  | Call.log_fps _ => true
  | _ => false

/-- Case analysis of one tick: a property holds of `loop s e` as soon as it holds
of the result of each of the ten paths through the method. -/
theorem loop_cases (s : LVGLCameraDisplay) (e : LoopEnv)
    (P : LVGLCameraDisplay × List Call → Prop)
    (no_camera : s.camera_ = 0 → P (s, []))
    (not_streaming : s.camera_ ≠ 0 → e.is_streaming = false → P (s, [Call.is_streaming]))
    (gated : s.camera_ ≠ 0 → e.is_streaming = true →
      u32_sub (u32 e.millis) s.last_update_time_ < s.update_interval_ →
      P (s, [Call.is_streaming, Call.millis]))
    (acquire_failed : reaches_acquire s e → e.acquire_frame = false →
      P ({ after_gate s e with drop_count_ := u32 (s.drop_count_ + 1) }, acquire_calls s))
    (transformed : reaches_acquire s e → e.acquire_frame = true →
      s.ppa_handle_ ≠ 0 → s.transform_buffer_ ≠ 0 → e.get_image_data ≠ 0 →
      e.ppa_ret = ESP_OK →
      P (loop_present (after_gate s e) e (u32 e.millis) s.transform_buffer_
          (effective_width s) (effective_height s)
          (acquire_calls s ++ [Call.get_image_data, ppa_call s e])))
    (fallback_zero : reaches_acquire s e → e.acquire_frame = true →
      s.ppa_handle_ ≠ 0 → s.transform_buffer_ ≠ 0 → e.get_image_data ≠ 0 →
      e.ppa_ret ≠ ESP_OK → e.copy_frame_rgb565 = 0 →
      P (after_gate s e,
          acquire_calls s ++ [Call.get_image_data, ppa_call s e, copy_call s, Call.release_frame]))
    (fallback_copied : reaches_acquire s e → e.acquire_frame = true →
      s.ppa_handle_ ≠ 0 → s.transform_buffer_ ≠ 0 → e.get_image_data ≠ 0 →
      e.ppa_ret ≠ ESP_OK → e.copy_frame_rgb565 ≠ 0 →
      P (loop_present (after_gate s e) e (u32 e.millis) s.display_buffer_
          (effective_width s) (effective_height s)
          (acquire_calls s ++ [Call.get_image_data, ppa_call s e, copy_call s])))
    (no_raw_buffer : reaches_acquire s e → e.acquire_frame = true →
      s.ppa_handle_ ≠ 0 → s.transform_buffer_ ≠ 0 → e.get_image_data = 0 →
      P (loop_present (after_gate s e) e (u32 e.millis) s.display_buffer_
          (effective_width s) (effective_height s)
          (acquire_calls s ++ [Call.get_image_data])))
    (direct_zero : reaches_acquire s e → e.acquire_frame = true →
      ¬ (s.ppa_handle_ ≠ 0 ∧ s.transform_buffer_ ≠ 0) → e.copy_frame_rgb565 = 0 →
      P ({ after_gate s e with drop_count_ := u32 (s.drop_count_ + 1) },
          acquire_calls s ++ [copy_call s, Call.release_frame]))
    (direct_copied : reaches_acquire s e → e.acquire_frame = true →
      ¬ (s.ppa_handle_ ≠ 0 ∧ s.transform_buffer_ ≠ 0) → e.copy_frame_rgb565 ≠ 0 →
      P (loop_present (after_gate s e) e (u32 e.millis) s.display_buffer_
          s.width_ s.height_ (acquire_calls s ++ [copy_call s]))) :
    P (loop s e) := by
  unfold loop
  by_cases h1 : s.camera_ = 0
  · simpa [h1] using no_camera h1
  by_cases h2 : e.is_streaming = false
  · simpa [h1, h2] using not_streaming h1 h2
  have h2t : e.is_streaming = true := by simpa using h2
  by_cases h3 : u32_sub (u32 e.millis) s.last_update_time_ < s.update_interval_
  · simpa [h1, h2, h3] using gated h1 h2t h3
  have hr : reaches_acquire s e := ⟨h1, h2t, h3⟩
  by_cases h4 : e.acquire_frame = false
  · simpa [h1, h2, h3, h4, after_gate, acquire_calls] using acquire_failed hr h4
  have h4t : e.acquire_frame = true := by simpa using h4
  by_cases h5 : s.ppa_handle_ ≠ 0 ∧ s.transform_buffer_ ≠ 0
  · by_cases h6 : e.get_image_data = 0
    · simpa [h1, h2, h3, h4, h5, h6, after_gate, acquire_calls, effective_width,
        effective_height] using no_raw_buffer hr h4t h5.1 h5.2 h6
    · by_cases h7 : e.ppa_ret = ESP_OK
      · simpa [h1, h2, h3, h4, h5, h6, h7, transform_frame_, after_gate, acquire_calls,
          effective_width, effective_height, ppa_call] using transformed hr h4t h5.1 h5.2 h6 h7
      · by_cases h8 : e.copy_frame_rgb565 = 0
        · simpa [h1, h2, h3, h4, h5, h6, h7, h8, transform_frame_, after_gate, acquire_calls,
            ppa_call, copy_call] using fallback_zero hr h4t h5.1 h5.2 h6 h7 h8
        · simpa [h1, h2, h3, h4, h5, h6, h7, h8, transform_frame_, after_gate, acquire_calls,
            effective_width, effective_height, ppa_call, copy_call]
            using fallback_copied hr h4t h5.1 h5.2 h6 h7 h8
  · by_cases h8 : e.copy_frame_rgb565 = 0
    · simpa [h1, h2, h3, h4, h5, h8, after_gate, acquire_calls, copy_call]
        using direct_zero hr h4t h5 h8
    · simpa [h1, h2, h3, h4, h5, h8, after_gate, acquire_calls, copy_call]
        using direct_copied hr h4t h5 h8

/-- What the scan establishes: every `lv_canvas_set_buffer` of the list has a
`release_frame` somewhere before it. -/
theorem release_precedes_present_sound (tr : List Call)
    (h : release_precedes_present tr = true) (pre post : List Call)
    (canvas buf w ht : Nat) (cf : lv_img_cf_t)
    (hsplit : tr = pre ++ Call.lv_canvas_set_buffer canvas buf w ht cf :: post) :
    Call.release_frame ∈ pre := by
  induction tr generalizing pre with
  | nil => simp at hsplit
  | cons c cs ih =>
    cases pre with
    | nil =>
      simp only [List.nil_append, List.cons.injEq] at hsplit
      rw [hsplit.1] at h
      simp [release_precedes_present] at h
    | cons p ps =>
      simp only [List.cons_append, List.cons.injEq] at hsplit
      obtain ⟨hc, hcs⟩ := hsplit
      subst hc
      by_cases hrel : c = Call.release_frame
      · simp [hrel]
      · have : release_precedes_present cs = true := by
          cases c <;> simp_all [release_precedes_present]
        exact List.mem_cons_of_mem _ (ih this ps hcs)

/-- A list whose calls before the first release are neither releases nor canvas
updates passes the scan. -/
theorem release_precedes_present_append (calls rest : List Call)
    (h : ∀ c ∈ calls, c.before_release = true) :
    release_precedes_present (calls ++ Call.release_frame :: rest) = true := by
  induction calls with
  | nil => simp [release_precedes_present]
  | cons c cs ih =>
    have hc := h c (List.mem_cons_self _ _)
    have hcs := ih (fun d hd => h d (List.mem_cons_of_mem _ hd))
    cases c <;> simp_all [release_precedes_present, Call.before_release]

/-- Calls that are neither releases nor canvas updates contain no release. -/
theorem count_release_prefix (calls : List Call)
    (h : ∀ c ∈ calls, c.before_release = true) :
    calls.count Call.release_frame = 0 := by
  rw [List.count_eq_zero]
  intro hmem
  have := h _ hmem
  simp [Call.before_release] at this

/-- Lines 252-286 append the sequence read, one release, and then calls that are
not releases. -/
theorem loop_present_calls (s : LVGLCameraDisplay) (e : LoopEnv) (now tb w h : Nat)
    (calls : List Call) :
    ∃ rest, (loop_present s e now tb w h calls).2
        = calls ++ (Call.get_current_sequence :: Call.release_frame :: rest)
      ∧ rest.count Call.release_frame = 0 := by
  unfold loop_present
  by_cases hc : s.canvas_obj_ = 0 <;> by_cases hd : e.lv_obj_get_disp = 0 <;>
    by_cases hf : s.first_update_ = true <;>
    by_cases hr : u32_sub now s.last_fps_time_ ≥ 5000 <;>
    simp [hc, hd, hf, hr]

/-- Lines 252-286 keep the release discipline when entered after a successful
acquisition with no release made yet. -/
theorem loop_present_release (k : Nat) (s : LVGLCameraDisplay) (e : LoopEnv) (now tb w h : Nat)
    (calls : List Call) (hpre : ∀ c ∈ calls, c.before_release = true)
    (hacq : Call.acquire_frame k ∈ calls) (hok : e.acquire_frame = true) :
    release_discipline e.acquire_frame (loop_present s e now tb w h calls) := by
  obtain ⟨rest, hr, hc⟩ := loop_present_calls s e now tb w h calls
  unfold release_discipline
  rw [hr]
  refine ⟨fun _ => ?_, fun hn => ?_, ?_⟩
  · simp [List.count_append, count_release_prefix calls hpre, hc]
  · exact absurd ⟨⟨k, by simp [hacq]⟩, hok⟩ hn
  · have : calls ++ Call.get_current_sequence :: Call.release_frame :: rest
        = (calls ++ [Call.get_current_sequence]) ++ Call.release_frame :: rest := by simp
    rw [this]
    apply release_precedes_present_append
    intro c hcm
    rcases List.mem_append.1 hcm with h1 | h1
    · exact hpre c h1
    · simp at h1; subst h1; rfl

/-- Every tick keeps the release discipline. -/
theorem loop_release_aux (s : LVGLCameraDisplay) (e : LoopEnv) :
    release_discipline e.acquire_frame (loop s e) := by
  apply loop_cases s e (release_discipline e.acquire_frame)
  case no_camera => intro _; simp [release_discipline, release_precedes_present]
  case not_streaming => intro _ _; simp [release_discipline, release_precedes_present]
  case gated => intro _ _ _; simp [release_discipline, release_precedes_present]
  case acquire_failed =>
    intro _ h; simp [release_discipline, release_precedes_present, acquire_calls, h]
  case fallback_zero =>
    intro _ h _ _ _ _ _
    simp [release_discipline, release_precedes_present, acquire_calls, h, ppa_call, copy_call]
  case direct_zero =>
    intro _ h _ _
    simp [release_discipline, release_precedes_present, acquire_calls, h, copy_call]
  all_goals
    intros
    apply loop_present_release s.last_frame_sequence_
    · simp [Call.before_release, acquire_calls, ppa_call, copy_call]
    · simp [acquire_calls]
    · assumption

/-- Lines 252-286 in factored form: the final state and the calls appended. -/
theorem loop_present_eq (s : LVGLCameraDisplay) (e : LoopEnv) (now tb w h : Nat)
    (calls : List Call) :
    loop_present s e now tb w h calls =
      (presented_state s e now,
        calls ++ [Call.get_current_sequence, Call.release_frame] ++ canvas_calls s e tb w h
          ++ (if report_due s now then [Call.log_fps (fps_report s now)] else [])) := by
  unfold loop_present presented_state canvas_calls report_due fps_report
  by_cases hc : s.canvas_obj_ = 0 <;> by_cases hd : e.lv_obj_get_disp = 0 <;>
    by_cases hf : s.first_update_ = true <;>
    by_cases hr : 5000 ≤ u32_sub now s.last_fps_time_ <;>
    simp [hc, hd, hf, hr]

/-! ## Buffer sizes and `setup` -/

/-- The 32-bit computation of `a * b * 2` is the product modulo `2^32`. -/
theorem rgb565_size_eq (a b : Nat) : rgb565_size a b = (a * b * 2) % 4294967296 := by
  unfold rgb565_size int_to_size_t wrap_int32
  have h : ((a : Int) * (b : Int)) = ((a * b : Nat) : Int) := by push_cast; rfl
  rw [h]
  generalize a * b = p
  omega

/-- The 32-bit computation of `a * b * 2` is exact below `2^32`. -/
theorem rgb565_size_exact (a b : Nat) (h : a * b * 2 < 4294967296) :
    rgb565_size a b = a * b * 2 := by
  rw [rgb565_size_eq, Nat.mod_eq_of_lt h]

/-- What a `setup()` that did not fail has established. -/
theorem setup_ok_cases (s : LVGLCameraDisplay) (e : SetupEnv)
    (hok : (setup s e).failed = false) :
    (setup s e).rotation_ = s.rotation_ ∧
    (setup s e).mirror_x_ = s.mirror_x_ ∧
    (setup s e).mirror_y_ = s.mirror_y_ ∧
    (setup s e).width_ = u16 e.get_image_width ∧
    (setup s e).height_ = u16 e.get_image_height ∧
    (setup s e).frame_size_ =
      rgb565_size (effective_width (setup s e)) (effective_height (setup s e)) ∧
    (needs_ppa s.rotation_ s.mirror_x_ s.mirror_y_ = true →
      e.ppa_register_ret = ESP_OK ∧
      (setup s e).ppa_handle_ = e.ppa_register_handle ∧
      (setup s e).transform_buffer_ ≠ 0 ∧
      (setup s e).transform_buffer_size_ = (setup s e).frame_size_) := by
  unfold setup at hok ⊢
  by_cases h1 : s.camera_ = 0
  · simp [h1, mark_failed] at hok
  by_cases h2 : e.display_alloc = 0
  · simp [h1, h2, mark_failed] at hok
  by_cases h3 : needs_ppa s.rotation_ s.mirror_x_ s.mirror_y_ = true
  · by_cases h4 : e.ppa_register_ret = ESP_OK
    · by_cases h5 : e.transform_alloc = 0
      · simp [h1, h2, h3, h4, h5, init_ppa_, mark_failed] at hok
      · by_cases h6 : e.is_streaming = false ∧ e.start_streaming = false
        · simp [h1, h2, h3, h4, h5, h6, init_ppa_, mark_failed] at hok
        · simp [h1, h2, h3, h4, h5, h6, init_ppa_, effective_width, effective_height]
    · simp [h1, h2, h3, h4, init_ppa_, mark_failed] at hok
  · by_cases h6 : e.is_streaming = false ∧ e.start_streaming = false
    · simp [h1, h2, h3, h6, mark_failed] at hok
    · simp [h1, h2, h3, h6, effective_width, effective_height]

/-! ## Invariants of a component in service -/

/-- Presenting a frame leaves orientation, PPA resources and resolution alone. -/
theorem presented_state_config (s : LVGLCameraDisplay) (e : LoopEnv) (now : Nat) :
    (presented_state s e now).rotation_ = s.rotation_ ∧
    (presented_state s e now).ppa_handle_ = s.ppa_handle_ ∧
    (presented_state s e now).transform_buffer_ = s.transform_buffer_ ∧
    (presented_state s e now).width_ = s.width_ ∧
    (presented_state s e now).height_ = s.height_ := by
  unfold presented_state
  split_ifs <;> simp

/-- A tick leaves orientation, PPA resources and resolution alone. -/
theorem loop_config (s : LVGLCameraDisplay) (e : LoopEnv) :
    (loop s e).1.rotation_ = s.rotation_ ∧
    (loop s e).1.ppa_handle_ = s.ppa_handle_ ∧
    (loop s e).1.transform_buffer_ = s.transform_buffer_ ∧
    (loop s e).1.width_ = s.width_ ∧
    (loop s e).1.height_ = s.height_ := by
  apply loop_cases s e (fun r => r.1.rotation_ = s.rotation_ ∧
    r.1.ppa_handle_ = s.ppa_handle_ ∧ r.1.transform_buffer_ = s.transform_buffer_ ∧
    r.1.width_ = s.width_ ∧ r.1.height_ = s.height_)
  case no_camera => intro _; simp
  case not_streaming => intro _ _; simp
  case gated => intro _ _ _; simp
  case acquire_failed => intro _ _; simp [after_gate]
  case fallback_zero => intros; simp [after_gate]
  case direct_zero => intros; simp [after_gate]
  all_goals
    intros
    rw [loop_present_eq]
    exact presented_state_config (after_gate s e) e (u32 e.millis)

/-- A rotation of 90 or 270 degrees is a configuration that asks for the PPA. -/
theorem swaps_axes_needs_ppa (r : RotationAngle) (mx my : Bool) (h : swaps_axes r = true) :
    needs_ppa r mx my = true := by
  cases r <;> simp_all [swaps_axes, needs_ppa]

/-- In service, a rotation of 90 or 270 degrees comes with a PPA handle and a
transform buffer. -/
theorem reachable_ppa_ready (s : LVGLCameraDisplay) (hs : Reachable s) :
    swaps_axes s.rotation_ = true → s.ppa_handle_ ≠ 0 ∧ s.transform_buffer_ ≠ 0 := by
  induction hs with
  | setup s0 e hwf hok =>
    intro hsw
    obtain ⟨hrot, _, _, _, _, _, hppa⟩ := setup_ok_cases s0 e hok
    rw [hrot] at hsw
    obtain ⟨hret, hh, htb, _⟩ := hppa (swaps_axes_needs_ppa _ _ _ hsw)
    exact ⟨by rw [hh]; exact hwf hret, htb⟩
  | loop s0 e _ ih =>
    obtain ⟨hrot, hh, htb, _, _⟩ := loop_config s0 e
    rw [hrot, hh, htb]
    exact ih
  | configure_canvas s0 c _ ih => exact ih

/-- The only canvas update among the LVGL calls is the one for the chosen
buffer and size. -/
theorem mem_canvas_calls (s : LVGLCameraDisplay) (e : LoopEnv) (tb w h : Nat)
    (canvas buf cw ch : Nat) (cf : lv_img_cf_t)
    (hm : Call.lv_canvas_set_buffer canvas buf cw ch cf ∈ canvas_calls s e tb w h) :
    canvas = s.canvas_obj_ ∧ buf = tb ∧ cw = w ∧ ch = h := by
  unfold canvas_calls at hm
  split_ifs at hm <;> simp_all

/-- The only canvas update of lines 252-286 is the one for the chosen buffer and
size. -/
theorem mem_loop_present (s : LVGLCameraDisplay) (e : LoopEnv) (now tb w h : Nat)
    (calls : List Call) (canvas buf cw ch : Nat) (cf : lv_img_cf_t)
    (hcalls : ∀ c ∈ calls, c.before_release = true)
    (hm : Call.lv_canvas_set_buffer canvas buf cw ch cf ∈ (loop_present s e now tb w h calls).2) :
    canvas = s.canvas_obj_ ∧ buf = tb ∧ cw = w ∧ ch = h := by
  rw [loop_present_eq] at hm
  simp only [List.mem_append] at hm
  rcases hm with ((h1 | h1) | h1) | h1
  · have := hcalls _ h1
    simp [Call.before_release] at this
  · simp at h1
  · exact mem_canvas_calls s e tb w h canvas buf cw ch cf h1
  · split_ifs at h1 <;> simp at h1

/-- The size a tick hands to the canvas: effective dimensions on the transform
path, source dimensions on the direct path. -/
theorem loop_presented (s : LVGLCameraDisplay) (e : LoopEnv)
    (canvas buf w h : Nat) (cf : lv_img_cf_t)
    (hp : Call.lv_canvas_set_buffer canvas buf w h cf ∈ (loop s e).2) :
    (s.ppa_handle_ ≠ 0 ∧ s.transform_buffer_ ≠ 0 →
      w = effective_width s ∧ h = effective_height s) ∧
    (¬ (s.ppa_handle_ ≠ 0 ∧ s.transform_buffer_ ≠ 0) → w = s.width_ ∧ h = s.height_) := by
  revert hp
  apply loop_cases s e (fun r => Call.lv_canvas_set_buffer canvas buf w h cf ∈ r.2 →
    (s.ppa_handle_ ≠ 0 ∧ s.transform_buffer_ ≠ 0 →
      w = effective_width s ∧ h = effective_height s) ∧
    (¬ (s.ppa_handle_ ≠ 0 ∧ s.transform_buffer_ ≠ 0) → w = s.width_ ∧ h = s.height_))
  case no_camera => intro _ hp; simp at hp
  case not_streaming => intro _ _ hp; simp at hp
  case gated => intro _ _ _ hp; simp at hp
  case acquire_failed => intro _ _ hp; simp [acquire_calls] at hp
  case fallback_zero => intro _ _ _ _ _ _ _ hp; simp [acquire_calls, ppa_call, copy_call] at hp
  case direct_zero => intro _ _ _ _ hp; simp [acquire_calls, copy_call] at hp
  case direct_copied =>
    intro _ _ hn _ hp
    have := mem_loop_present _ e _ _ _ _ _ canvas buf w h cf
      (by simp [Call.before_release, acquire_calls, copy_call]) hp
    exact ⟨fun hh => absurd hh hn, fun _ => ⟨this.2.2.1, this.2.2.2⟩⟩
  case transformed =>
    intro _ _ hh ht _ _ hp
    have := mem_loop_present _ e _ _ _ _ _ canvas buf w h cf
      (by simp [Call.before_release, acquire_calls, ppa_call]) hp
    exact ⟨fun _ => ⟨this.2.2.1, this.2.2.2⟩, fun hn => absurd ⟨hh, ht⟩ hn⟩
  case fallback_copied =>
    intro _ _ hh ht _ _ _ hp
    have := mem_loop_present _ e _ _ _ _ _ canvas buf w h cf
      (by simp [Call.before_release, acquire_calls, ppa_call, copy_call]) hp
    exact ⟨fun _ => ⟨this.2.2.1, this.2.2.2⟩, fun hn => absurd ⟨hh, ht⟩ hn⟩
  case no_raw_buffer =>
    intro _ _ hh ht _ hp
    have := mem_loop_present _ e _ _ _ _ _ canvas buf w h cf
      (by simp [Call.before_release, acquire_calls]) hp
    exact ⟨fun _ => ⟨this.2.2.1, this.2.2.2⟩, fun hn => absurd ⟨hh, ht⟩ hn⟩

/-! ## The periodic report -/

/-- A report among the calls of lines 252-286 is the one due at this tick. -/
theorem mem_loop_present_log (s : LVGLCameraDisplay) (e : LoopEnv) (now tb w h : Nat)
    (calls : List Call) (r : FpsReport)
    (hcalls : ∀ c ∈ calls, c.is_report = false)
    (hm : Call.log_fps r ∈ (loop_present s e now tb w h calls).2) :
    report_due s now = true ∧ r = fps_report s now := by
  rw [loop_present_eq] at hm
  simp only [List.mem_append] at hm
  rcases hm with ((h1 | h1) | h1) | h1
  · have := hcalls _ h1
    simp [Call.is_report] at this
  · simp at h1
  · unfold canvas_calls at h1
    split_ifs at h1 <;> simp at h1
  · split_ifs at h1 with hdue
    · simp at h1
      exact ⟨hdue, h1⟩
    · simp at h1

/-- Lines 252-286 always read the sequence and release the frame. -/
theorem loop_present_mem_sequence (s : LVGLCameraDisplay) (e : LoopEnv) (now tb w h : Nat)
    (calls : List Call) :
    Call.get_current_sequence ∈ (loop_present s e now tb w h calls).2 ∧
    Call.release_frame ∈ (loop_present s e now tb w h calls).2 := by
  rw [loop_present_eq]
  simp

/-- A tick that reports ends with both counters at zero and a new window start. -/
theorem presented_state_report (s : LVGLCameraDisplay) (e : LoopEnv) (now : Nat)
    (hdue : report_due s now = true) :
    (presented_state s e now).frame_count_ = 0 ∧
    (presented_state s e now).drop_count_ = 0 ∧
    (presented_state s e now).last_fps_time_ = now := by
  simp only [report_due, Bool.and_eq_true, Bool.not_eq_eq_eq_not, Bool.not_true,
    decide_eq_true_eq] at hdue
  simp [presented_state, hdue.1, hdue.2]

/-- A report in a tick: the tick presented, the report was due, its operands are
those of `fps_report`, and the counters are reset. -/
theorem loop_report (s : LVGLCameraDisplay) (e : LoopEnv) (r : FpsReport)
    (hr : Call.log_fps r ∈ (loop s e).2) :
    Call.get_current_sequence ∈ (loop s e).2 ∧ Call.release_frame ∈ (loop s e).2 ∧
    report_due s (u32 e.millis) = true ∧ r = fps_report s (u32 e.millis) ∧
    (loop s e).1.frame_count_ = 0 ∧ (loop s e).1.drop_count_ = 0 ∧
    (loop s e).1.last_fps_time_ = u32 e.millis := by
  revert hr
  apply loop_cases s e (fun res => Call.log_fps r ∈ res.2 →
    Call.get_current_sequence ∈ res.2 ∧ Call.release_frame ∈ res.2 ∧
    report_due s (u32 e.millis) = true ∧ r = fps_report s (u32 e.millis) ∧
    res.1.frame_count_ = 0 ∧ res.1.drop_count_ = 0 ∧ res.1.last_fps_time_ = u32 e.millis)
  case no_camera => intro _ hp; simp at hp
  case not_streaming => intro _ _ hp; simp at hp
  case gated => intro _ _ _ hp; simp at hp
  case acquire_failed => intro _ _ hp; simp [acquire_calls] at hp
  case fallback_zero => intro _ _ _ _ _ _ _ hp; simp [acquire_calls, ppa_call, copy_call] at hp
  case direct_zero => intro _ _ _ _ hp; simp [acquire_calls, copy_call] at hp
  all_goals
    intros
    rename_i hp
    have hm := mem_loop_present_log _ e _ _ _ _ _ r
      (by simp [Call.is_report, acquire_calls, ppa_call, copy_call]) hp
    have hdue : report_due s (u32 e.millis) = true := hm.1
    exact ⟨(loop_present_mem_sequence _ e _ _ _ _ _).1,
      (loop_present_mem_sequence _ e _ _ _ _ _).2, hdue, hm.2,
      by rw [loop_present_eq]; exact presented_state_report (after_gate s e) e _ hdue⟩

/-! ## Telemetry over a run of ticks -/

/-- C1 (timing gate). With a camera linked and streaming, if
`now - last_update_time_`, computed in `uint32_t` arithmetic, is below
`update_interval_`, one `loop()` leaves the whole component state unchanged
(so `frame_count_`, `drop_count_`, `last_update_time_` and
`last_frame_sequence_` keep their values) and the only calls it makes are
`is_streaming()` and `millis()`: no acquire, raw-buffer access, transform,
copy, release or canvas call. -/
theorem loop_timing_gate (s : LVGLCameraDisplay) (e : LoopEnv)
    (hcam : s.camera_ ≠ 0) (hstream : e.is_streaming = true)
    (hgate : u32_sub (u32 e.millis) s.last_update_time_ < s.update_interval_) :
    (loop s e).1 = s ∧ (loop s e).2 = [Call.is_streaming, Call.millis] := by
  simp [loop, hcam, hstream, hgate]

/-- C1 exercised across the wrap of the millisecond clock: the last tick ran
at 4294967290 ms, the clock now reads 5 ms, eleven milliseconds later. -/
theorem loop_timing_gate_witness :
    rotated_late.camera_ ≠ 0 ∧ (good_tick 5).is_streaming = true ∧
    u32_sub (u32 (good_tick 5).millis) rotated_late.last_update_time_
      < rotated_late.update_interval_ ∧
    (loop rotated_late (good_tick 5)).1 = rotated_late ∧
    (loop rotated_late (good_tick 5)).2 = [Call.is_streaming, Call.millis] :=
  ⟨by decide, by decide, by decide,
    loop_timing_gate rotated_late (good_tick 5) (by decide) (by decide) (by decide)⟩

/-- Drop accounting on the two paths that count: when `acquire_frame` fails,
or when the direct copy (no PPA handle or no transform buffer) returns zero
bytes, `drop_count_` is incremented (as a `uint32_t`) and `frame_count_` is
unchanged. -/
theorem loop_drop_counted (s : LVGLCameraDisplay) (e : LoopEnv)
    (hreach : reaches_acquire s e)
    (hdrop : e.acquire_frame = false ∨
      (¬ (s.ppa_handle_ ≠ 0 ∧ s.transform_buffer_ ≠ 0) ∧ e.copy_frame_rgb565 = 0)) :
    (loop s e).1.drop_count_ = u32 (s.drop_count_ + 1) ∧
    (loop s e).1.frame_count_ = s.frame_count_ := by
  obtain ⟨h1, h2, h3⟩ := hreach
  by_cases h4 : e.acquire_frame = false
  · simp [loop, h1, h2, h3, h4]
  · rcases hdrop with hd | ⟨hd1, hd2⟩
    · exact absurd hd h4
    · simp [loop, h1, h2, h3, h4, hd1, hd2]

/-- C2 (drop accounting) evaluated on the fallback path. The rotated
1280x720 component ticks at 100 ms; the frame is acquired, the PPA rejects
the request and the fallback `copy_frame_rgb565` returns 0 bytes. The tick
releases the frame and returns, and `drop_count_` is still 0: this
zero-byte copy is not counted as a drop, unlike the one of the direct
path. -/
theorem fallback_zero_copy_not_counted :
    reaches_acquire rotated_ready (fallback_zero_tick 100) ∧
    (fallback_zero_tick 100).acquire_frame = true ∧
    (transform_frame_ (after_gate rotated_ready (fallback_zero_tick 100))
      (fallback_zero_tick 100).get_image_data rotated_ready.transform_buffer_
      (fallback_zero_tick 100).ppa_ret).1 = false ∧
    (fallback_zero_tick 100).copy_frame_rgb565 = 0 ∧
    (loop rotated_ready (fallback_zero_tick 100)).2 =
      [Call.is_streaming, Call.millis, Call.acquire_frame 0, Call.get_image_data,
        ppa_call rotated_ready (fallback_zero_tick 100),
        Call.copy_frame_rgb565 4096 1843200 true, Call.release_frame] ∧
    rotated_ready.drop_count_ = 0 ∧
    (loop rotated_ready (fallback_zero_tick 100)).1.drop_count_ = 0 ∧
    ¬ ((loop rotated_ready (fallback_zero_tick 100)).1.drop_count_
        = rotated_ready.drop_count_ + 1) ∧
    (loop rotated_ready (fallback_zero_tick 100)).1.frame_count_ = 0 := by
  decide

/-- C3 (release before present). In every tick of `loop()`: if
`acquire_frame` was called and succeeded, `release_frame` is called exactly
once, whichever path the tick takes; if it was not called (no camera, not
streaming, gated) or failed, `release_frame` is not called; and every
`lv_canvas_set_buffer` call of the tick comes after the `release_frame`
call. -/
theorem loop_release_before_present (s : LVGLCameraDisplay) (e : LoopEnv) :
    (((∃ k, Call.acquire_frame k ∈ (loop s e).2) ∧ e.acquire_frame = true) →
        (loop s e).2.count Call.release_frame = 1) ∧
    (¬ ((∃ k, Call.acquire_frame k ∈ (loop s e).2) ∧ e.acquire_frame = true) →
        (loop s e).2.count Call.release_frame = 0) ∧
    (∀ (pre post : List Call) (canvas buf w h : Nat) (cf : lv_img_cf_t),
        (loop s e).2 = pre ++ Call.lv_canvas_set_buffer canvas buf w h cf :: post →
        Call.release_frame ∈ pre) := by
  obtain ⟨h1, h2, h3⟩ := loop_release_aux s e
  exact ⟨h1, h2, fun pre post canvas buf w h cf hs =>
    release_precedes_present_sound _ h3 pre post canvas buf w h cf hs⟩

/-- C3 exercised: a presenting tick of the rotated component releases once,
before the canvas update; a tick without a frame and a gated tick do not
release. -/
theorem loop_release_before_present_witness :
    (loop rotated_ready (good_tick 100)).2 =
      [Call.is_streaming, Call.millis, Call.acquire_frame 0, Call.get_image_data,
        ppa_call rotated_ready (good_tick 100), Call.get_current_sequence,
        Call.release_frame, Call.lv_obj_get_disp 2, Call.lv_disp_refr_timer,
        Call.lv_canvas_set_buffer 2 2097152 720 1280 lv_img_cf_t.LV_IMG_CF_TRUE_COLOR,
        Call.lv_obj_invalidate 2] ∧
    (loop rotated_ready (good_tick 100)).2.count Call.release_frame = 1 ∧
    (loop rotated_ready (dropped_tick 100)).2.count Call.release_frame = 0 ∧
    (loop rotated_ready (good_tick 10)).2.count Call.release_frame = 0 :=
  ⟨by decide,
    (loop_release_before_present rotated_ready (good_tick 100)).1
      ⟨⟨0, by decide⟩, by decide⟩,
    (loop_release_before_present rotated_ready (dropped_tick 100)).2.1
      (fun h => absurd h.2 (by decide)),
    (loop_release_before_present rotated_ready (good_tick 10)).2.1
      (fun h => by
        obtain ⟨⟨k, hk⟩, _⟩ := h
        have ht : (loop rotated_ready (good_tick 10)).2 = [Call.is_streaming, Call.millis] := by
          decide
        rw [ht] at hk
        simp at hk)⟩

/-- C4 (dimension swap invariant). In every state of a component in service
(reached by a successful `setup()`, then ticks and canvas assignments),
every `lv_canvas_set_buffer` call of a `loop()` tick passes width =
`height_` and height = `width_` when the rotation is 90 or 270 degrees, and
width = `width_`, height = `height_` when it is 0 or 180 degrees, for every
mirror setting and on every path of the tick. -/
theorem presented_dimensions (s : LVGLCameraDisplay) (hs : Reachable s) (e : LoopEnv)
    (canvas buf w h : Nat) (cf : lv_img_cf_t)
    (hp : Call.lv_canvas_set_buffer canvas buf w h cf ∈ (loop s e).2) :
    ((s.rotation_ = .ROTATION_90 ∨ s.rotation_ = .ROTATION_270) →
      w = s.height_ ∧ h = s.width_) ∧
    ((s.rotation_ = .ROTATION_0 ∨ s.rotation_ = .ROTATION_180) →
      w = s.width_ ∧ h = s.height_) := by
  have hinv := reachable_ppa_ready s hs
  obtain ⟨hppa, hdirect⟩ := loop_presented s e canvas buf w h cf hp
  constructor
  · intro hrot
    have hsw : swaps_axes s.rotation_ = true := by
      rcases hrot with h1 | h1 <;> simp [h1, swaps_axes]
    have := hppa (hinv hsw)
    simpa [effective_width, effective_height, hsw] using this
  · intro hrot
    have hsw : swaps_axes s.rotation_ = false := by
      rcases hrot with h1 | h1 <;> simp [h1, swaps_axes]
    by_cases hp2 : s.ppa_handle_ ≠ 0 ∧ s.transform_buffer_ ≠ 0
    · simpa [effective_width, effective_height, hsw] using hppa hp2
    · exact hdirect hp2

/-- The rotated 1280x720 component is in service after its `setup()`. -/
theorem rotated_ready_reachable : Reachable rotated_ready :=
  Reachable.setup rotated_config hd_setup (by decide) (by decide)

/-- C4 exercised on the scenario of the specification: 1280x720, rotation
90 degrees, mirror_x: the canvas receives 720x1280. -/
theorem presented_dimensions_witness :
    Reachable rotated_ready ∧
    Call.lv_canvas_set_buffer 2 2097152 720 1280 lv_img_cf_t.LV_IMG_CF_TRUE_COLOR
      ∈ (loop rotated_ready (good_tick 100)).2 ∧
    rotated_ready.rotation_ = RotationAngle.ROTATION_90 ∧
    rotated_ready.mirror_x_ = true ∧
    rotated_ready.width_ = 1280 ∧ rotated_ready.height_ = 720 ∧
    (720 = rotated_ready.height_ ∧ 1280 = rotated_ready.width_) :=
  ⟨rotated_ready_reachable, by decide, by decide, by decide, by decide, by decide,
    (presented_dimensions rotated_ready rotated_ready_reachable (good_tick 100)
      2 2097152 720 1280 lv_img_cf_t.LV_IMG_CF_TRUE_COLOR (by decide)).1 (Or.inl (by decide))⟩

/-- C5 (buffer sizing) fails for large resolutions. A camera reporting
46341x46341 with the 90 degree configuration: `setup()` succeeds, and both
`frame_size_` and `transform_buffer_size_` are 9266 bytes, the product
46341 x 46341 x 2 = 4294976562 reduced modulo 2^32. -/
theorem setup_frame_size_wraps :
    (setup rotated_config huge_setup).failed = false ∧
    (setup rotated_config huge_setup).width_ = 46341 ∧
    (setup rotated_config huge_setup).height_ = 46341 ∧
    effective_width (setup rotated_config huge_setup)
      * effective_height (setup rotated_config huge_setup) * 2 = 4294976562 ∧
    (setup rotated_config huge_setup).frame_size_ = 9266 ∧
    (setup rotated_config huge_setup).transform_buffer_size_ = 9266 ∧
    ¬ ((setup rotated_config huge_setup).frame_size_ =
        effective_width (setup rotated_config huge_setup)
          * effective_height (setup rotated_config huge_setup) * 2) := by
  decide

/-- C5 (buffer sizing), amended. After a `setup()` that did not fail,
`width_` and `height_` are the camera's resolution as `uint16_t` values,
`frame_size_` is effective_width x effective_height x 2 reduced modulo 2^32,
hence equal to that product whenever the product is below 2^32; and when
the configuration asks for a transform (rotation or mirror), the transform
buffer is allocated and `transform_buffer_size_` equals `frame_size_`. -/
theorem setup_buffer_sizes (s : LVGLCameraDisplay) (e : SetupEnv)
    (hok : (setup s e).failed = false) :
    (setup s e).width_ = u16 e.get_image_width ∧
    (setup s e).height_ = u16 e.get_image_height ∧
    (setup s e).frame_size_ =
      (effective_width (setup s e) * effective_height (setup s e) * 2) % 4294967296 ∧
    (effective_width (setup s e) * effective_height (setup s e) * 2 < 4294967296 →
      (setup s e).frame_size_ =
        effective_width (setup s e) * effective_height (setup s e) * 2) ∧
    (needs_ppa (setup s e).rotation_ (setup s e).mirror_x_ (setup s e).mirror_y_ = true →
      (setup s e).transform_buffer_ ≠ 0 ∧
      (setup s e).transform_buffer_size_ = (setup s e).frame_size_) := by
  obtain ⟨hrot, hmx, hmy, hw, hh, hfs, hppa⟩ := setup_ok_cases s e hok
  refine ⟨hw, hh, ?_, ?_, ?_⟩
  · rw [hfs, rgb565_size_eq]
  · intro hfit
    rw [hfs, rgb565_size_exact _ _ hfit]
  · intro hn
    rw [hrot, hmx, hmy] at hn
    exact ⟨(hppa hn).2.2.1, (hppa hn).2.2.2⟩

/-- C5 exercised on the 1280x720 camera with the 90 degree configuration:
both buffers hold 720 x 1280 x 2 = 1843200 bytes. -/
theorem setup_buffer_sizes_witness :
    (setup rotated_config hd_setup).failed = false ∧
    effective_width (setup rotated_config hd_setup) = 720 ∧
    effective_height (setup rotated_config hd_setup) = 1280 ∧
    (setup rotated_config hd_setup).frame_size_ = 720 * 1280 * 2 ∧
    (setup rotated_config hd_setup).transform_buffer_size_
      = (setup rotated_config hd_setup).frame_size_ :=
  ⟨by decide, by decide, by decide,
    ((setup_buffer_sizes rotated_config hd_setup (by decide)).2.2.2.1 (by decide)).trans
      (by decide),
    ((setup_buffer_sizes rotated_config hd_setup (by decide)).2.2.2.2 (by decide)).2⟩

/-- C6 (fallback correctness) fails for `frame_count_` on a reporting tick.
The rotated component has presented one frame at 100 ms; at 5100 ms the PPA
rejects the request, the fallback copy delivers 1843200 bytes and the
display buffer is presented, but the tick also emits the 5 s report and
ends with `frame_count_` = 0, not 2. -/
theorem fallback_report_resets_frame_count :
    reaches_acquire rotated_running (fallback_tick 5100) ∧
    (fallback_tick 5100).acquire_frame = true ∧
    rotated_running.ppa_handle_ ≠ 0 ∧ rotated_running.transform_buffer_ ≠ 0 ∧
    (fallback_tick 5100).get_image_data ≠ 0 ∧
    (transform_frame_ (after_gate rotated_running (fallback_tick 5100))
      (fallback_tick 5100).get_image_data rotated_running.transform_buffer_
      (fallback_tick 5100).ppa_ret).1 = false ∧
    (fallback_tick 5100).copy_frame_rgb565 ≠ 0 ∧
    Call.lv_canvas_set_buffer 2 rotated_running.display_buffer_ 720 1280
      lv_img_cf_t.LV_IMG_CF_TRUE_COLOR ∈ (loop rotated_running (fallback_tick 5100)).2 ∧
    rotated_running.frame_count_ = 1 ∧
    (loop rotated_running (fallback_tick 5100)).1.frame_count_ = 0 ∧
    ¬ ((loop rotated_running (fallback_tick 5100)).1.frame_count_
        = rotated_running.frame_count_ + 1) := by
  decide

/-- C6 (fallback correctness), amended. In a tick that acquires a frame with
PPA handle, transform buffer and raw camera buffer all present, and in which
`transform_frame_` returns false: `copy_frame_rgb565` is called with
destination `display_buffer_`, capacity `frame_size_` and white balance
enabled. If it returns a non-zero byte count, every buffer handed to the
canvas is `display_buffer_` (and one is handed over when a canvas is
configured), and `frame_count_` is incremented by one as a `uint32_t`: the
tick ends with that value, unless it also emits the periodic report, which
then carries that value while `frame_count_` ends at 0. -/
theorem fallback_presents_display_buffer (s : LVGLCameraDisplay) (e : LoopEnv)
    (hreach : reaches_acquire s e) (hacq : e.acquire_frame = true)
    (hh : s.ppa_handle_ ≠ 0) (ht : s.transform_buffer_ ≠ 0) (hd : e.get_image_data ≠ 0)
    (hfail : (transform_frame_ (after_gate s e) e.get_image_data s.transform_buffer_
      e.ppa_ret).1 = false) :
    Call.copy_frame_rgb565 s.display_buffer_ s.frame_size_ true ∈ (loop s e).2 ∧
    (e.copy_frame_rgb565 ≠ 0 →
      (∀ (canvas buf w h : Nat) (cf : lv_img_cf_t),
        Call.lv_canvas_set_buffer canvas buf w h cf ∈ (loop s e).2 →
        buf = s.display_buffer_) ∧
      (s.canvas_obj_ ≠ 0 →
        Call.lv_canvas_set_buffer s.canvas_obj_ s.display_buffer_ (effective_width s)
          (effective_height s) lv_img_cf_t.LV_IMG_CF_TRUE_COLOR ∈ (loop s e).2) ∧
      ((∀ r : FpsReport, Call.log_fps r ∉ (loop s e).2) →
        (loop s e).1.frame_count_ = u32 (s.frame_count_ + 1)) ∧
      (∀ r : FpsReport, Call.log_fps r ∈ (loop s e).2 →
        r.frame_count = u32 (s.frame_count_ + 1) ∧ (loop s e).1.frame_count_ = 0)) := by
  obtain ⟨h1, h2, h3⟩ := hreach
  have h7 : e.ppa_ret ≠ ESP_OK := by
    intro h
    simp [transform_frame_, after_gate, hh, ht, hd, h] at hfail
  by_cases h8 : e.copy_frame_rgb565 = 0
  · simp [loop, transform_frame_, h1, h2, h3, hacq, hh, ht, hd, h7, h8]
  · have hl : loop s e = loop_present (after_gate s e) e (u32 e.millis) s.display_buffer_
        (effective_width s) (effective_height s)
        (acquire_calls s ++ [Call.get_image_data, ppa_call s e, copy_call s]) := by
      simp [loop, transform_frame_, h1, h2, h3, hacq, hh, ht, hd, h7, h8, after_gate,
        acquire_calls, effective_width, effective_height, ppa_call, copy_call]
    have hpre : ∀ c ∈ acquire_calls s ++ [Call.get_image_data, ppa_call s e, copy_call s],
        c.before_release = true := by
      simp [Call.before_release, acquire_calls, ppa_call, copy_call]
    refine ⟨?_, fun _ => ⟨?_, ?_, ?_, ?_⟩⟩
    · rw [hl, loop_present_eq]
      simp [copy_call]
    · intro canvas buf w h cf hm
      rw [hl] at hm
      exact (mem_loop_present _ e _ _ _ _ _ canvas buf w h cf hpre hm).2.1
    · intro hc
      rw [hl, loop_present_eq]
      simp [canvas_calls, after_gate, hc]
    · intro hno
      have hdue : report_due (after_gate s e) (u32 e.millis) = false := by
        by_contra hc
        have hc2 : report_due (after_gate s e) (u32 e.millis) = true := by simpa using hc
        apply hno (fps_report (after_gate s e) (u32 e.millis))
        rw [hl, loop_present_eq, hc2]
        simp
      rw [hl, loop_present_eq]
      simp only [report_due, after_gate, Bool.and_eq_false_imp, Bool.not_eq_eq_eq_not,
        Bool.not_true, decide_eq_false_iff_not] at hdue
      by_cases hf : s.first_update_ = true
      · simp [presented_state, after_gate, hf]
      · have hf2 : s.first_update_ = false := by simpa using hf
        simp [presented_state, after_gate, hf2, hdue hf2]
    · intro r hr
      obtain ⟨_, _, _, hrep, hfc, _, _⟩ := loop_report s e r hr
      subst hrep
      exact ⟨rfl, hfc⟩

/-- C6 exercised: the rotated component ticks at 100 ms, the PPA rejects the
request and the fallback copy delivers the frame; the display buffer (at
4096, not the transform buffer at 2097152) is presented and `frame_count_`
goes from 0 to 1. -/
theorem fallback_presents_display_buffer_witness :
    reaches_acquire rotated_ready (fallback_tick 100) ∧
    rotated_ready.display_buffer_ = 4096 ∧ rotated_ready.transform_buffer_ = 2097152 ∧
    Call.copy_frame_rgb565 4096 1843200 true ∈ (loop rotated_ready (fallback_tick 100)).2 ∧
    Call.lv_canvas_set_buffer 2 4096 720 1280 lv_img_cf_t.LV_IMG_CF_TRUE_COLOR
      ∈ (loop rotated_ready (fallback_tick 100)).2 ∧
    (loop rotated_ready (fallback_tick 100)).1.frame_count_ = 1 :=
  ⟨by decide, by decide, by decide,
    (fallback_presents_display_buffer rotated_ready (fallback_tick 100) (by decide)
      (by decide) (by decide) (by decide) (by decide) (by decide)).1,
    ((fallback_presents_display_buffer rotated_ready (fallback_tick 100) (by decide)
      (by decide) (by decide) (by decide) (by decide) (by decide)).2 (by decide)).2.1
      (by decide),
    (((fallback_presents_display_buffer rotated_ready (fallback_tick 100) (by decide)
      (by decide) (by decide) (by decide) (by decide) (by decide)).2 (by decide)).2.2.1
      (fun r hr => by
        have ht : (loop rotated_ready (fallback_tick 100)).2 =
            [Call.is_streaming, Call.millis, Call.acquire_frame 0, Call.get_image_data,
              ppa_call rotated_ready (fallback_tick 100),
              Call.copy_frame_rgb565 4096 1843200 true, Call.get_current_sequence,
              Call.release_frame, Call.lv_obj_get_disp 2, Call.lv_disp_refr_timer,
              Call.lv_canvas_set_buffer 2 4096 720 1280 lv_img_cf_t.LV_IMG_CF_TRUE_COLOR,
              Call.lv_obj_invalidate 2] := by decide
        rw [ht] at hr
        simp [ppa_call] at hr)).trans (by decide)⟩

/-- C7 (absent raw buffer) evaluated on the code. The rotated component
ticks at 100 ms; the frame is acquired and `get_image_data()` returns null.
The tick makes no `copy_frame_rgb565` call at all: it goes on to release the
frame, presents the (unwritten) display buffer as 720x1280 and counts a
frame, although a copy would have returned 0 bytes. -/
theorem no_raw_buffer_skips_copy :
    reaches_acquire rotated_ready (no_raw_buffer_tick 100) ∧
    (no_raw_buffer_tick 100).acquire_frame = true ∧
    rotated_ready.ppa_handle_ ≠ 0 ∧ rotated_ready.transform_buffer_ ≠ 0 ∧
    (no_raw_buffer_tick 100).get_image_data = 0 ∧
    (no_raw_buffer_tick 100).copy_frame_rgb565 = 0 ∧
    (loop rotated_ready (no_raw_buffer_tick 100)).2 =
      [Call.is_streaming, Call.millis, Call.acquire_frame 0, Call.get_image_data,
        Call.get_current_sequence, Call.release_frame, Call.lv_obj_get_disp 2,
        Call.lv_disp_refr_timer,
        Call.lv_canvas_set_buffer 2 4096 720 1280 lv_img_cf_t.LV_IMG_CF_TRUE_COLOR,
        Call.lv_obj_invalidate 2] ∧
    rotated_ready.frame_count_ = 0 ∧
    (loop rotated_ready (no_raw_buffer_tick 100)).1.frame_count_ = 1 := by
  decide

/-- The null raw buffer on every input: a tick that acquires a frame with
PPA handle and transform buffer present and gets no raw buffer calls
neither the PPA nor `copy_frame_rgb565`, whatever that copy would return,
and goes straight to presenting `display_buffer_`. -/
theorem loop_no_raw_buffer (s : LVGLCameraDisplay) (e : LoopEnv)
    (hreach : reaches_acquire s e) (hacq : e.acquire_frame = true)
    (hh : s.ppa_handle_ ≠ 0) (ht : s.transform_buffer_ ≠ 0) (hd : e.get_image_data = 0) :
    (loop s e).2 =
      acquire_calls s ++ [Call.get_image_data, Call.get_current_sequence, Call.release_frame]
        ++ canvas_calls s e s.display_buffer_ (effective_width s) (effective_height s)
        ++ (if report_due s (u32 e.millis) then [Call.log_fps (fps_report s (u32 e.millis))]
            else []) := by
  obtain ⟨h1, h2, h3⟩ := hreach
  have hl : loop s e = loop_present (after_gate s e) e (u32 e.millis) s.display_buffer_
      (effective_width s) (effective_height s) (acquire_calls s ++ [Call.get_image_data]) := by
    simp [loop, h1, h2, h3, hacq, hh, ht, hd, after_gate, acquire_calls, effective_width,
      effective_height]
  rw [hl, loop_present_eq]
  have h4 : canvas_calls (after_gate s e) e s.display_buffer_ (effective_width s)
      (effective_height s) = canvas_calls s e s.display_buffer_ (effective_width s)
      (effective_height s) := rfl
  have h5 : report_due (after_gate s e) (u32 e.millis) = report_due s (u32 e.millis) := rfl
  have h6 : fps_report (after_gate s e) (u32 e.millis) = fps_report s (u32 e.millis) := rfl
  rw [h4, h5, h6]
  simp

/-- C8 (failed acquisition) fails for the gate time. The unrotated component
ticks at 100 ms and gets no frame: `last_update_time_` moves from 0 to 100.
A tick at 110 ms is therefore gated, while it would have run had the failed
tick not happened. -/
theorem failed_acquire_moves_gate_time :
    reaches_acquire plain_ready (dropped_tick 100) ∧
    (dropped_tick 100).acquire_frame = false ∧
    plain_ready.last_update_time_ = 0 ∧
    (loop plain_ready (dropped_tick 100)).1.last_update_time_ = 100 ∧
    ¬ ((loop plain_ready (dropped_tick 100)).1
        = { plain_ready with drop_count_ := plain_ready.drop_count_ + 1 }) ∧
    (loop (loop plain_ready (dropped_tick 100)).1 (good_tick 110)).2
      = [Call.is_streaming, Call.millis] ∧
    Call.acquire_frame 0 ∈ (loop plain_ready (good_tick 110)).2 := by
  decide

/-- C8 (failed acquisition), amended. A tick that passes the timing gate and
whose `acquire_frame` fails makes the calls `is_streaming`, `millis`,
`acquire_frame` and nothing else, and changes exactly two fields:
`drop_count_` is incremented (as a `uint32_t`) and `last_update_time_`
becomes `now`. A later tick is therefore gated relative to the failed
tick: it returns at the gate when its clock value is less than
`update_interval_` after `now`. -/
theorem failed_acquire_effect (s : LVGLCameraDisplay) (e : LoopEnv)
    (hreach : reaches_acquire s e) (hfail : e.acquire_frame = false) :
    (loop s e).1 =
      { s with last_update_time_ := u32 e.millis, drop_count_ := u32 (s.drop_count_ + 1) } ∧
    (loop s e).2 =
      [Call.is_streaming, Call.millis, Call.acquire_frame s.last_frame_sequence_] ∧
    (∀ e2 : LoopEnv, e2.is_streaming = true →
      u32_sub (u32 e2.millis) (u32 e.millis) < s.update_interval_ →
      loop (loop s e).1 e2 = ((loop s e).1, [Call.is_streaming, Call.millis])) := by
  obtain ⟨h1, h2, h3⟩ := hreach
  have hl : loop s e =
      ({ s with last_update_time_ := u32 e.millis, drop_count_ := u32 (s.drop_count_ + 1) },
        [Call.is_streaming, Call.millis, Call.acquire_frame s.last_frame_sequence_]) := by
    simp [loop, h1, h2, h3, hfail]
  refine ⟨by rw [hl], by rw [hl], ?_⟩
  intro e2 hs2 hg2
  rw [hl]
  simp [loop, h1, hs2, hg2]

/-- C8 exercised: the failed tick at 100 ms of the unrotated component, and
the tick at 110 ms that it gates. -/
theorem failed_acquire_effect_witness :
    reaches_acquire plain_ready (dropped_tick 100) ∧
    (dropped_tick 100).acquire_frame = false ∧
    (loop plain_ready (dropped_tick 100)).1
      = { plain_ready with last_update_time_ := 100, drop_count_ := 1 } ∧
    (loop plain_ready (dropped_tick 100)).2
      = [Call.is_streaming, Call.millis, Call.acquire_frame 0] :=
  ⟨by decide, by decide,
    (failed_acquire_effect plain_ready (dropped_tick 100) (by decide) (by decide)).1,
    (failed_acquire_effect plain_ready (dropped_tick 100) (by decide) (by decide)).2.1⟩

/-- The request on every input: with a registered handle and non-null
source and destination, `transform_frame_` hands the accelerator exactly one
request, whose mirror flags are the configured ones, whose scale is 1 in
both axes, whose input picture is `width_` x `height_` and whose output
picture has the effective dimensions; its rotation field holds the integer
value of `rotation_` (0, 90, 180 or 270). -/
theorem transform_request_fields (s : LVGLCameraDisplay) (src dst ppa_ret : Nat)
    (hh : s.ppa_handle_ ≠ 0) (hsrc : src ≠ 0) (hdst : dst ≠ 0) :
    (transform_frame_ s src dst ppa_ret).2
      = [Call.ppa_do_scale_rotate_mirror s.ppa_handle_ (srm_config s src dst)] ∧
    (srm_config s src dst).rotation_angle = s.rotation_.toNat ∧
    (srm_config s src dst).mirror_x = s.mirror_x_ ∧
    (srm_config s src dst).mirror_y = s.mirror_y_ ∧
    (srm_config s src dst).scale_x = 1 ∧ (srm_config s src dst).scale_y = 1 ∧
    (srm_config s src dst).in_pic_w = s.width_ ∧
    (srm_config s src dst).in_pic_h = s.height_ ∧
    (srm_config s src dst).out_pic_w = effective_width s ∧
    (srm_config s src dst).out_pic_h = effective_height s := by
  refine ⟨?_, rfl, rfl, rfl, rfl, rfl, rfl, rfl, rfl, rfl⟩
  unfold transform_frame_
  split_ifs <;> simp_all

/-- The cast `(ppa_srm_rotation_angle_t)rotation_` yields the accelerator's
enumerator for the configured angle only at 0 degrees. -/
theorem rotation_cast_matches_iff (s : LVGLCameraDisplay) (src dst : Nat) :
    (srm_config s src dst).rotation_angle = (ppa_angle_for s.rotation_).toNat
      ↔ s.rotation_ = RotationAngle.ROTATION_0 := by
  cases h : s.rotation_ <;>
    simp [srm_config, h, RotationAngle.toNat, ppa_angle_for, ppa_srm_rotation_angle_t.toNat]

/-- Independently of the values the accelerator gives its enumerators: the
cast yields the enumerator for the configured angle at every rotation only
if those values are the degrees 0, 90, 180 and 270. -/
theorem rotation_cast_needs_degree_values (enc : ppa_srm_rotation_angle_t → Nat) :
    (∀ (s : LVGLCameraDisplay) (src dst : Nat),
      (srm_config s src dst).rotation_angle = enc (ppa_angle_for s.rotation_)) ↔
    (enc .PPA_SRM_ROTATION_ANGLE_0 = 0 ∧ enc .PPA_SRM_ROTATION_ANGLE_90 = 90 ∧
      enc .PPA_SRM_ROTATION_ANGLE_180 = 180 ∧ enc .PPA_SRM_ROTATION_ANGLE_270 = 270) := by
  constructor
  · intro h
    have h0 := h { LVGLCameraDisplay.new with rotation_ := .ROTATION_0 } 0 0
    have h1 := h { LVGLCameraDisplay.new with rotation_ := .ROTATION_90 } 0 0
    have h2 := h { LVGLCameraDisplay.new with rotation_ := .ROTATION_180 } 0 0
    have h3 := h { LVGLCameraDisplay.new with rotation_ := .ROTATION_270 } 0 0
    exact ⟨h0.symm, h1.symm, h2.symm, h3.symm⟩
  · rintro ⟨h0, h1, h2, h3⟩ s src dst
    cases h : s.rotation_ <;>
      simp [srm_config, h, RotationAngle.toNat, ppa_angle_for, h0, h1, h2, h3]

/-- C9 (transform request) evaluated on the scenario of the specification:
1280x720, rotation 90 degrees, mirror_x. The request carries mirror_x true,
mirror_y false, scale 1, input 1280x720 and output 720x1280, but its
rotation field holds the integer 90, whereas `PPA_SRM_ROTATION_ANGLE_90`
has the value 1; 90 is the value of no enumerator of the accelerator. -/
theorem transform_request_rotation_value :
    rotated_ready.rotation_ = RotationAngle.ROTATION_90 ∧
    rotated_ready.ppa_handle_ ≠ 0 ∧
    (transform_frame_ rotated_ready 8192 rotated_ready.transform_buffer_ 0).2
      = [Call.ppa_do_scale_rotate_mirror 3
          (srm_config rotated_ready 8192 rotated_ready.transform_buffer_)] ∧
    (srm_config rotated_ready 8192 rotated_ready.transform_buffer_).mirror_x = true ∧
    (srm_config rotated_ready 8192 rotated_ready.transform_buffer_).mirror_y = false ∧
    (srm_config rotated_ready 8192 rotated_ready.transform_buffer_).scale_x = 1 ∧
    (srm_config rotated_ready 8192 rotated_ready.transform_buffer_).scale_y = 1 ∧
    (srm_config rotated_ready 8192 rotated_ready.transform_buffer_).in_pic_w = 1280 ∧
    (srm_config rotated_ready 8192 rotated_ready.transform_buffer_).in_pic_h = 720 ∧
    (srm_config rotated_ready 8192 rotated_ready.transform_buffer_).out_pic_w = 720 ∧
    (srm_config rotated_ready 8192 rotated_ready.transform_buffer_).out_pic_h = 1280 ∧
    (srm_config rotated_ready 8192 rotated_ready.transform_buffer_).rotation_angle = 90 ∧
    ppa_srm_rotation_angle_t.PPA_SRM_ROTATION_ANGLE_90.toNat = 1 ∧
    ¬ ((srm_config rotated_ready 8192 rotated_ready.transform_buffer_).rotation_angle
        = (ppa_angle_for rotated_ready.rotation_).toNat) ∧
    (∀ a : ppa_srm_rotation_angle_t,
      a.toNat ≠ (srm_config rotated_ready 8192 rotated_ready.transform_buffer_).rotation_angle) := by
  refine ⟨by decide, by decide, by decide, by decide, by decide, by decide, by decide,
    by decide, by decide, by decide, by decide, by decide, by decide, by decide, ?_⟩
  intro a
  cases a <;> decide

set_option maxRecDepth 100000

end esphome.lvgl_camera_display
